import Mathlib

/-!
Verification of the ADSI handle-wrapper library (`object.go`, `api/iadsopendsobject.go`).

The library wraps platform COM interface pointers in handles.  Each handle owns one
interface pointer (`iface`), guarded by a mutex; `Close` releases the pointer exactly
once and nulls it; accessors fail with a closed-handle error once the pointer is nil.

The embedding below is a shallow one:

* An interface pointer is an abstract `Nat`; the platform (the COM objects behind the
  pointers, the external `go-ole` GUID parser, and the external `comutil` object
  creator) is an oracle structure `Platform` of pure functions.
* The mutable state of the program is `State`: the list of handles (index = handle
  identity, entry = the handle's `iface` field, `none` when closed) together with the
  process-wide `comshim` reference count.
* Every operation of `object.go` becomes a function `Platform → State → HandleId → ...`
  returning its result, the successor state, and the list of externally visible events
  (platform calls and shim reference-count changes) it issued, in order.

A separate small-step interleaving model at the end of the file embeds the
mutex-protected statement sequences of an accessor and of `Close` for the
concurrency claim.
-/

namespace Adsi

/-- An opaque COM interface pointer (abstract identity). -/
abbrev IfacePtr := Nat

/-- An opaque platform (COM) error code. -/
abbrev PlatErr := Nat

/-- A handle identity: the index of the handle in the program state. -/
abbrev HandleId := Nat

/-- A structured 128-bit identifier, as produced by the external GUID parser
(`ole.NewGUID`).  The fields mirror the four data groups of a COM GUID. -/
structure GUID where
  d1 : Nat
  d2 : Nat
  d3 : Nat
  d4 : Nat
deriving DecidableEq, Repr

/-- The interface identifiers used by this repository (declarative GUID constants of
the `api` package: `IID_IADsContainer`, `IID_IADsComputer`, `IID_IADsGroup`,
`IID_IADsOpenDSObject`), kept abstract but distinct. -/
inductive IID where
  | iadsContainer
  | iadsComputer
  | iadsGroup
  | iadsOpenDSObject
deriving DecidableEq, Repr

/-- The error taxonomy of the library: the local closed-handle error `ErrClosed`, the
local invalid-identifier error `ErrInvalidGUID`, and platform errors passed through
unmodified (carrying the platform's own code). -/
inductive AdsiErr where
  | errClosed
  | errInvalidGUID
  | platform (e : PlatErr)
deriving DecidableEq, Repr

/-- The platform oracle: behaviour of the external collaborators.  `nameR` through
`schemaR` are the COM vtable calls made through an `api.IADs` pointer;
`queryInterfaceR` is `IADs.QueryInterface`; `releaseR` is `IADs.Release` (its outcome,
which the wrapper discards); `newGUID` is the external `ole.NewGUID` string parser
(`none` on parse failure); `createRemoteObject` is the external
`comutil.CreateRemoteObject` (returning a possibly-nil raw pointer and a possible
error, as the Go function returns both values). -/
structure Platform where
  nameR : IfacePtr → Except PlatErr String
  classR : IfacePtr → Except PlatErr String
  guidR : IfacePtr → Except PlatErr String
  adsPathR : IfacePtr → Except PlatErr String
  parentR : IfacePtr → Except PlatErr String
  schemaR : IfacePtr → Except PlatErr String
  queryInterfaceR : IfacePtr → IID → Except PlatErr IfacePtr
  releaseR : IfacePtr → Except PlatErr Unit
  newGUID : String → Option GUID
  createRemoteObject : String → GUID → IID → Option IfacePtr × Option PlatErr

/-- The externally visible events an operation can issue: platform calls through an
interface pointer, object creation, and process-wide shim reference-count changes. -/
inductive Event where
  | shimAdd
  | shimDone
  | callName (p : IfacePtr)
  | callClass (p : IfacePtr)
  | callGUID (p : IfacePtr)
  | callAdsPath (p : IfacePtr)
  | callParent (p : IfacePtr)
  | callSchema (p : IfacePtr)
  | callQueryInterface (p : IfacePtr) (iid : IID)
  | callRelease (p : IfacePtr)
  | callCreateRemote (server : String) (clsid : GUID) (iid : IID)
deriving DecidableEq, Repr

/-- The program state: `handles` maps each handle identity to its `iface` field
(`none` = closed, mirroring the nulled pointer), and `shim` is the process-wide
`comshim` reference count. -/
structure State where
  handles : List (Option IfacePtr)
  shim : Nat
deriving DecidableEq, Repr

/-- The `iface` field of handle `h` (out-of-range identities read as `none`). -/
def State.handleAt (s : State) (h : HandleId) : Option IfacePtr :=
  s.handles.getD h none

/-- `object.closed`: the handle is closed iff its interface pointer is nil. -/
def Object.closed (s : State) (h : HandleId) : Bool :=
  (s.handleAt h).isNone

/-- Modelled from the spec: the execution shim `run` (repository code not under
`src/`) executes the given platform call inside the COM apartment context and
returns whatever error the call produced; in this sequential embedding it is the
identity on the call's outcome. -/
def run {α : Type} (r : Except AdsiErr α) : Except AdsiErr α := r

/-- `NewObject`: adds one process-wide shim reference, then returns a new handle
managing the given interface pointer. -/
def NewObject (s : State) (p : IfacePtr) : HandleId × State × List Event :=
  (s.handles.length, { handles := s.handles ++ [some p], shim := s.shim + 1 },
   [Event.shimAdd])

/-- Modelled from the spec: `NewContainer` (`container.go`, not under `src/`)
constructs a new, independently-owned typed handle wrapping the given interface
pointer, adding one process-wide shim reference on construction as `NewObject` does. -/
def NewContainer (s : State) (p : IfacePtr) : HandleId × State × List Event :=
  (s.handles.length, { handles := s.handles ++ [some p], shim := s.shim + 1 },
   [Event.shimAdd])

/-- Modelled from the spec: `NewComputer` (`computer.go`, not under `src/`), as
`NewContainer`. -/
def NewComputer (s : State) (p : IfacePtr) : HandleId × State × List Event :=
  (s.handles.length, { handles := s.handles ++ [some p], shim := s.shim + 1 },
   [Event.shimAdd])

/-- Modelled from the spec: `NewGroup` (`group.go`, not under `src/`), as
`NewContainer`. -/
def NewGroup (s : State) (p : IfacePtr) : HandleId × State × List Event :=
  (s.handles.length, { handles := s.handles ++ [some p], shim := s.shim + 1 },
   [Event.shimAdd])

/-- `object.Close`: under lock, no-op if already closed; otherwise releases the
interface reference through the execution shim (the release outcome and the shim
result are both discarded, as in the source), nulls the pointer, and drops one
process-wide shim reference on exit.  Returns nothing. -/
def Object.Close (P : Platform) (s : State) (h : HandleId) : State × List Event :=
  match s.handleAt h with
  | none => (s, [])
  | some p =>
    let _rel := P.releaseR p
    let _ignored := run (Except.ok ())
    ({ handles := s.handles.set h none, shim := s.shim - 1 },
     [Event.callRelease p, Event.shimDone])

/-- `object.Name`: under lock, closed-handle error if closed; otherwise the platform
call through the execution shim, with platform errors passed through. -/
def Object.Name (P : Platform) (s : State) (h : HandleId) :
    Except AdsiErr String × State × List Event :=
  match s.handleAt h with
  | none => (Except.error AdsiErr.errClosed, s, [])
  | some p =>
    (run (match P.nameR p with
          | Except.ok v => Except.ok v
          | Except.error e => Except.error (AdsiErr.platform e)),
     s, [Event.callName p])

/-- `object.Class`, as `object.Name`. -/
def Object.Class (P : Platform) (s : State) (h : HandleId) :
    Except AdsiErr String × State × List Event :=
  match s.handleAt h with
  | none => (Except.error AdsiErr.errClosed, s, [])
  | some p =>
    (run (match P.classR p with
          | Except.ok v => Except.ok v
          | Except.error e => Except.error (AdsiErr.platform e)),
     s, [Event.callClass p])

/-- `object.GUID`: under lock, closed-handle error if closed; otherwise fetches the
GUID string from the platform, then parses it with the external parser; parse
failure yields `ErrInvalidGUID` and no value. -/
def Object.GUID (P : Platform) (s : State) (h : HandleId) :
    Except AdsiErr Adsi.GUID × State × List Event :=
  match s.handleAt h with
  | none => (Except.error AdsiErr.errClosed, s, [])
  | some p =>
    (run (match P.guidR p with
          | Except.error e => Except.error (AdsiErr.platform e)
          | Except.ok sguid =>
            match P.newGUID sguid with
            | none => Except.error AdsiErr.errInvalidGUID
            | some g => Except.ok g),
     s, [Event.callGUID p])

/-- `object.Path` (calls `IADs.AdsPath`), as `object.Name`. -/
def Object.Path (P : Platform) (s : State) (h : HandleId) :
    Except AdsiErr String × State × List Event :=
  match s.handleAt h with
  | none => (Except.error AdsiErr.errClosed, s, [])
  | some p =>
    (run (match P.adsPathR p with
          | Except.ok v => Except.ok v
          | Except.error e => Except.error (AdsiErr.platform e)),
     s, [Event.callAdsPath p])

/-- `object.Parent`, as `object.Name`. -/
def Object.Parent (P : Platform) (s : State) (h : HandleId) :
    Except AdsiErr String × State × List Event :=
  match s.handleAt h with
  | none => (Except.error AdsiErr.errClosed, s, [])
  | some p =>
    (run (match P.parentR p with
          | Except.ok v => Except.ok v
          | Except.error e => Except.error (AdsiErr.platform e)),
     s, [Event.callParent p])

/-- `object.Schema`, as `object.Name`. -/
def Object.Schema (P : Platform) (s : State) (h : HandleId) :
    Except AdsiErr String × State × List Event :=
  match s.handleAt h with
  | none => (Except.error AdsiErr.errClosed, s, [])
  | some p =>
    (run (match P.schemaR p with
          | Except.ok v => Except.ok v
          | Except.error e => Except.error (AdsiErr.platform e)),
     s, [Event.callSchema p])

/-- `object.ToContainer`: under lock, closed-handle error if closed; otherwise
queries the platform object for `IID_IADsContainer`; on failure the platform's own
error is returned unmodified and no handle is produced; on success a new
independently-owned typed handle wrapping the new pointer is constructed. -/
def Object.ToContainer (P : Platform) (s : State) (h : HandleId) :
    Except AdsiErr HandleId × State × List Event :=
  match s.handleAt h with
  | none => (Except.error AdsiErr.errClosed, s, [])
  | some p =>
    match P.queryInterfaceR p IID.iadsContainer with
    | Except.error e =>
      (run (Except.error (AdsiErr.platform e)), s,
       [Event.callQueryInterface p IID.iadsContainer])
    | Except.ok q =>
      let nc := NewContainer s q
      (run (Except.ok nc.1), nc.2.1,
       Event.callQueryInterface p IID.iadsContainer :: nc.2.2)

/-- `object.ToComputer`, as `object.ToContainer` with `IID_IADsComputer`. -/
def Object.ToComputer (P : Platform) (s : State) (h : HandleId) :
    Except AdsiErr HandleId × State × List Event :=
  match s.handleAt h with
  | none => (Except.error AdsiErr.errClosed, s, [])
  | some p =>
    match P.queryInterfaceR p IID.iadsComputer with
    | Except.error e =>
      (run (Except.error (AdsiErr.platform e)), s,
       [Event.callQueryInterface p IID.iadsComputer])
    | Except.ok q =>
      let nc := NewComputer s q
      (run (Except.ok nc.1), nc.2.1,
       Event.callQueryInterface p IID.iadsComputer :: nc.2.2)

/-- `object.ToGroup`, as `object.ToContainer` with `IID_IADsGroup`. -/
def Object.ToGroup (P : Platform) (s : State) (h : HandleId) :
    Except AdsiErr HandleId × State × List Event :=
  match s.handleAt h with
  | none => (Except.error AdsiErr.errClosed, s, [])
  | some p =>
    match P.queryInterfaceR p IID.iadsGroup with
    | Except.error e =>
      (run (Except.error (AdsiErr.platform e)), s,
       [Event.callQueryInterface p IID.iadsGroup])
    | Except.ok q =>
      let nc := NewGroup s q
      (run (Except.ok nc.1), nc.2.1,
       Event.callQueryInterface p IID.iadsGroup :: nc.2.2)

/-- `api.NewIADsOpenDSObject`: a pure pass-through to the external
`comutil.CreateRemoteObject` with `IID_IADsOpenDSObject`, returning the (cast) raw
pointer and the error exactly as produced, issuing a single creation call. -/
def NewIADsOpenDSObject (P : Platform) (server : String) (clsid : GUID) :
    (Option IfacePtr × Option PlatErr) × List Event :=
  (P.createRemoteObject server clsid IID.iadsOpenDSObject,
   [Event.callCreateRemote server clsid IID.iadsOpenDSObject])

/-! ### List helper lemmas -/

theorem getD_set_none_self (l : List (Option IfacePtr)) (h : Nat) :
    (l.set h none).getD h none = none := by
  induction l generalizing h with
  | nil => simp
  | cons a t ih =>
    cases h with
    | zero => simp
    | succ k => simpa using ih k

theorem getD_set_ne (l : List (Option IfacePtr)) (v : Option IfacePtr)
    (h h' : Nat) (hne : h ≠ h') :
    (l.set h v).getD h' none = l.getD h' none := by
  induction l generalizing h h' with
  | nil => simp
  | cons a t ih =>
    cases h with
    | zero =>
      cases h' with
      | zero => exact absurd rfl hne
      | succ k' => simp
    | succ k =>
      cases h' with
      | zero => simp
      | succ k' => simpa using ih k k' (fun hh => hne (by rw [hh]))

theorem getD_append_lt (l l' : List (Option IfacePtr)) (h : Nat)
    (hlt : h < l.length) :
    (l ++ l').getD h none = l.getD h none := by
  induction l generalizing h with
  | nil => simp at hlt
  | cons a t ih =>
    cases h with
    | zero => simp
    | succ k => simpa using ih k (by simpa using hlt)

theorem getD_append_length (l : List (Option IfacePtr)) (a : Option IfacePtr) :
    (l ++ [a]).getD l.length none = a := by
  induction l with
  | nil => simp
  | cons b t ih => simp [ih]

theorem getD_eq_none_of_le (l : List (Option IfacePtr)) (h : Nat)
    (hle : l.length ≤ h) :
    l.getD h none = none := by
  induction l generalizing h with
  | nil => simp
  | cons a t ih =>
    cases h with
    | zero => simp at hle
    | succ k => simpa using ih k (by simpa using hle)

theorem lt_length_of_handleAt_some (s : State) (h : HandleId) (p : IfacePtr)
    (hp : s.handleAt h = some p) : h < s.handles.length := by
  by_contra hge
  rw [State.handleAt, getD_eq_none_of_le s.handles h (Nat.le_of_not_lt hge)] at hp
  exact Option.noConfusion hp

/-! ### Shared behaviour lemmas -/

theorem close_closes (P : Platform) (s : State) (h : HandleId) :
    ((Object.Close P s h).1).handleAt h = none := by
  cases hc : s.handleAt h with
  | none => simp [Object.Close, hc]
  | some p =>
    have h1 : (Object.Close P s h).1
        = { handles := s.handles.set h none, shim := s.shim - 1 } := by
      simp [Object.Close, hc]
    rw [h1]
    exact getD_set_none_self s.handles h

theorem close_of_closed (P : Platform) (s : State) (h : HandleId)
    (hc : s.handleAt h = none) : Object.Close P s h = (s, []) := by
  simp [Object.Close, hc]

/-! ### Claim theorems -/

/-- Claim C1: for every handle, every accessor and cast operation (Name, Class,
GUID, Path, Parent, Schema, ToContainer, ToComputer, ToGroup) invoked on a closed
handle returns the closed-handle error `ErrClosed`, leaves the state unchanged, and
issues no platform call (empty event list). -/
theorem claim1_closed_ops (P : Platform) (s : State) (h : HandleId)
    (hc : s.handleAt h = none) :
    Object.Name P s h = (Except.error AdsiErr.errClosed, s, []) ∧
    Object.Class P s h = (Except.error AdsiErr.errClosed, s, []) ∧
    Object.GUID P s h = (Except.error AdsiErr.errClosed, s, []) ∧
    Object.Path P s h = (Except.error AdsiErr.errClosed, s, []) ∧
    Object.Parent P s h = (Except.error AdsiErr.errClosed, s, []) ∧
    Object.Schema P s h = (Except.error AdsiErr.errClosed, s, []) ∧
    Object.ToContainer P s h = (Except.error AdsiErr.errClosed, s, []) ∧
    Object.ToComputer P s h = (Except.error AdsiErr.errClosed, s, []) ∧
    Object.ToGroup P s h = (Except.error AdsiErr.errClosed, s, []) := by
  refine ⟨?_, ?_, ?_, ?_, ?_, ?_, ?_, ?_, ?_⟩ <;>
    simp [Object.Name, Object.Class, Object.GUID, Object.Path, Object.Parent,
      Object.Schema, Object.ToContainer, Object.ToComputer, Object.ToGroup, hc]

/-- A concrete platform oracle used by the witnesses: every vtable call succeeds,
interface queries return a fresh pointer, the GUID parser rejects every string. -/
def P0 : Platform where
  nameR := fun _ => Except.ok "example-object"
  classR := fun _ => Except.ok "container"
  guidR := fun _ => Except.ok "not-a-guid"
  adsPathR := fun _ => Except.ok "LDAP-path"
  parentR := fun _ => Except.ok "LDAP-parent"
  schemaR := fun _ => Except.ok "LDAP-schema"
  queryInterfaceR := fun p _ => Except.ok (p + 1)
  releaseR := fun _ => Except.ok ()
  newGUID := fun _ => none
  createRemoteObject := fun _ _ _ => (some 5, none)

/-- A concrete state with one closed handle. -/
def sClosed : State := { handles := [none], shim := 0 }

/-- Witness for C1 at the concrete closed handle 0 of `sClosed`. -/
theorem claim1_closed_ops_witness :
    Object.Name P0 sClosed 0 = (Except.error AdsiErr.errClosed, sClosed, []) ∧
    Object.Class P0 sClosed 0 = (Except.error AdsiErr.errClosed, sClosed, []) ∧
    Object.GUID P0 sClosed 0 = (Except.error AdsiErr.errClosed, sClosed, []) ∧
    Object.Path P0 sClosed 0 = (Except.error AdsiErr.errClosed, sClosed, []) ∧
    Object.Parent P0 sClosed 0 = (Except.error AdsiErr.errClosed, sClosed, []) ∧
    Object.Schema P0 sClosed 0 = (Except.error AdsiErr.errClosed, sClosed, []) ∧
    Object.ToContainer P0 sClosed 0 = (Except.error AdsiErr.errClosed, sClosed, []) ∧
    Object.ToComputer P0 sClosed 0 = (Except.error AdsiErr.errClosed, sClosed, []) ∧
    Object.ToGroup P0 sClosed 0 = (Except.error AdsiErr.errClosed, sClosed, []) :=
  claim1_closed_ops P0 sClosed 0 (by rfl)

/-- Claim C2: `Close` is idempotent — a second `Close` on the same handle is a
no-op: it leaves the state unchanged and issues no event (no second platform
release, no second shim decrement). -/
theorem claim2_close_idempotent (P : Platform) (s : State) (h : HandleId) :
    Object.Close P (Object.Close P s h).1 h = ((Object.Close P s h).1, []) :=
  close_of_closed P (Object.Close P s h).1 h (close_closes P s h)

/-- Claim C7: `Close` always ends with the handle marked closed (interface pointer
nulled), and its entire outcome is independent of the platform — in particular of
the release call's result, which is never surfaced (`Close` returns only the state
and its events, no error). -/
theorem claim7_close_unconditional (P Q : Platform) (s : State) (h : HandleId) :
    ((Object.Close P s h).1).handleAt h = none ∧
    Object.Close P s h = Object.Close Q s h := by
  refine ⟨close_closes P s h, ?_⟩
  cases hc : s.handleAt h with
  | none => simp [Object.Close, hc]
  | some p => simp [Object.Close, hc]

/-- A concrete state with one open handle (interface pointer 3). -/
def sOpen : State := { handles := [some 3], shim := 1 }

/-- Claim C4: on an open handle, when the platform returns a GUID string that the
external parser rejects, the GUID accessor fails with the dedicated
invalid-identifier error `ErrInvalidGUID`, which is distinct from every platform
error, and returns no parsed value. -/
theorem claim4_guid_invalid (P : Platform) (s : State) (h : HandleId) (p : IfacePtr)
    (sg : String) (hp : s.handleAt h = some p) (hg : P.guidR p = Except.ok sg)
    (hn : P.newGUID sg = none) :
    (Object.GUID P s h).1 = Except.error AdsiErr.errInvalidGUID ∧
    (∀ e : PlatErr, (AdsiErr.errInvalidGUID : AdsiErr) ≠ AdsiErr.platform e) ∧
    (∀ g : Adsi.GUID, (Object.GUID P s h).1 ≠ Except.ok g) := by
  have h1 : (Object.GUID P s h).1 = Except.error AdsiErr.errInvalidGUID := by
    simp [Object.GUID, hp, hg, hn, run]
  refine ⟨h1, ?_, ?_⟩
  · intro e
    simp
  · intro g
    rw [h1]
    simp

/-- Witness for C4: `P0` returns the unparsable string and rejects it in parsing. -/
theorem claim4_guid_invalid_witness :
    (Object.GUID P0 sOpen 0).1 = Except.error AdsiErr.errInvalidGUID ∧
    (∀ e : PlatErr, (AdsiErr.errInvalidGUID : AdsiErr) ≠ AdsiErr.platform e) ∧
    (∀ g : Adsi.GUID, (Object.GUID P0 sOpen 0).1 ≠ Except.ok g) :=
  claim4_guid_invalid P0 sOpen 0 3 "not-a-guid" (by rfl) (by rfl) (by rfl)

/-- Shared lemma for C5: extending the state with a fresh handle wrapping `q`
yields a handle independent of the source handle `h`: the fresh identity is new,
both handles are open, and closing either one leaves the other open. -/
theorem extend_independent (P : Platform) (s : State) (h : HandleId) (p q : IfacePtr)
    (hp : s.handleAt h = some p) :
    s.handles.length ≠ h ∧
    (State.mk (s.handles ++ [some q]) (s.shim + 1)).handleAt h = some p ∧
    (State.mk (s.handles ++ [some q]) (s.shim + 1)).handleAt s.handles.length
      = some q ∧
    ((Object.Close P (State.mk (s.handles ++ [some q]) (s.shim + 1)) h).1).handleAt
      s.handles.length = some q ∧
    ((Object.Close P (State.mk (s.handles ++ [some q]) (s.shim + 1))
        s.handles.length).1).handleAt h = some p := by
  have hlt : h < s.handles.length := lt_length_of_handleAt_some s h p hp
  have hne : s.handles.length ≠ h := ne_of_gt hlt
  have h1 : (State.mk (s.handles ++ [some q]) (s.shim + 1)).handleAt h = some p := by
    show (s.handles ++ [some q]).getD h none = some p
    rw [getD_append_lt s.handles [some q] h hlt]
    exact hp
  have h2 : (State.mk (s.handles ++ [some q]) (s.shim + 1)).handleAt
      s.handles.length = some q := by
    show (s.handles ++ [some q]).getD s.handles.length none = some q
    exact getD_append_length s.handles (some q)
  have h3 : ((Object.Close P (State.mk (s.handles ++ [some q]) (s.shim + 1))
      h).1).handleAt s.handles.length = some q := by
    have hcl : (Object.Close P (State.mk (s.handles ++ [some q]) (s.shim + 1)) h).1
        = State.mk ((s.handles ++ [some q]).set h none) (s.shim + 1 - 1) := by
      simp [Object.Close, h1]
    rw [hcl]
    show ((s.handles ++ [some q]).set h none).getD s.handles.length none = some q
    rw [getD_set_ne _ _ _ _ (Nat.ne_of_lt hlt)]
    exact getD_append_length s.handles (some q)
  have h4 : ((Object.Close P (State.mk (s.handles ++ [some q]) (s.shim + 1))
      s.handles.length).1).handleAt h = some p := by
    have hcl : (Object.Close P (State.mk (s.handles ++ [some q]) (s.shim + 1))
        s.handles.length).1
        = State.mk ((s.handles ++ [some q]).set s.handles.length none)
            (s.shim + 1 - 1) := by
      simp [Object.Close, h2]
    rw [hcl]
    show ((s.handles ++ [some q]).set s.handles.length none).getD h none = some p
    rw [getD_set_ne _ _ _ _ hne, getD_append_lt s.handles [some q] h hlt]
    exact hp
  exact ⟨hne, h1, h2, h3, h4⟩

/-- Claim C5: a successful cast (`ToContainer`, `ToComputer`, `ToGroup`) on an open
handle returns a new, independently-owned handle wrapping the queried interface
pointer: the new identity differs from the source, the source stays open and
unchanged, closing the source leaves the derived handle open, and closing the
derived handle leaves the source open. -/
theorem claim5_cast_independent (P : Platform) (s : State) (h : HandleId)
    (p qc qm qg : IfacePtr)
    (hp : s.handleAt h = some p)
    (hqc : P.queryInterfaceR p IID.iadsContainer = Except.ok qc)
    (hqm : P.queryInterfaceR p IID.iadsComputer = Except.ok qm)
    (hqg : P.queryInterfaceR p IID.iadsGroup = Except.ok qg) :
    ((Object.ToContainer P s h).1 = Except.ok s.handles.length ∧
     s.handles.length ≠ h ∧
     ((Object.ToContainer P s h).2.1).handleAt h = some p ∧
     ((Object.ToContainer P s h).2.1).handleAt s.handles.length = some qc ∧
     ((Object.Close P (Object.ToContainer P s h).2.1 h).1).handleAt
       s.handles.length = some qc ∧
     ((Object.Close P (Object.ToContainer P s h).2.1 s.handles.length).1).handleAt
       h = some p) ∧
    ((Object.ToComputer P s h).1 = Except.ok s.handles.length ∧
     ((Object.ToComputer P s h).2.1).handleAt h = some p ∧
     ((Object.ToComputer P s h).2.1).handleAt s.handles.length = some qm ∧
     ((Object.Close P (Object.ToComputer P s h).2.1 h).1).handleAt
       s.handles.length = some qm ∧
     ((Object.Close P (Object.ToComputer P s h).2.1 s.handles.length).1).handleAt
       h = some p) ∧
    ((Object.ToGroup P s h).1 = Except.ok s.handles.length ∧
     ((Object.ToGroup P s h).2.1).handleAt h = some p ∧
     ((Object.ToGroup P s h).2.1).handleAt s.handles.length = some qg ∧
     ((Object.Close P (Object.ToGroup P s h).2.1 h).1).handleAt
       s.handles.length = some qg ∧
     ((Object.Close P (Object.ToGroup P s h).2.1 s.handles.length).1).handleAt
       h = some p) := by
  have hstC : (Object.ToContainer P s h).2.1
      = State.mk (s.handles ++ [some qc]) (s.shim + 1) := by
    simp [Object.ToContainer, NewContainer, hp, hqc]
  have hstM : (Object.ToComputer P s h).2.1
      = State.mk (s.handles ++ [some qm]) (s.shim + 1) := by
    simp [Object.ToComputer, NewComputer, hp, hqm]
  have hstG : (Object.ToGroup P s h).2.1
      = State.mk (s.handles ++ [some qg]) (s.shim + 1) := by
    simp [Object.ToGroup, NewGroup, hp, hqg]
  have hiC := extend_independent P s h p qc hp
  have hiM := extend_independent P s h p qm hp
  have hiG := extend_independent P s h p qg hp
  refine ⟨⟨?_, hiC.1, ?_, ?_, ?_, ?_⟩, ⟨?_, ?_, ?_, ?_, ?_⟩, ⟨?_, ?_, ?_, ?_, ?_⟩⟩
  · simp [Object.ToContainer, NewContainer, hp, hqc, run]
  · rw [hstC]; exact hiC.2.1
  · rw [hstC]; exact hiC.2.2.1
  · rw [hstC]; exact hiC.2.2.2.1
  · rw [hstC]; exact hiC.2.2.2.2
  · simp [Object.ToComputer, NewComputer, hp, hqm, run]
  · rw [hstM]; exact hiM.2.1
  · rw [hstM]; exact hiM.2.2.1
  · rw [hstM]; exact hiM.2.2.2.1
  · rw [hstM]; exact hiM.2.2.2.2
  · simp [Object.ToGroup, NewGroup, hp, hqg, run]
  · rw [hstG]; exact hiG.2.1
  · rw [hstG]; exact hiG.2.2.1
  · rw [hstG]; exact hiG.2.2.2.1
  · rw [hstG]; exact hiG.2.2.2.2

/-- Witness for C5 at the concrete open handle 0 of `sOpen` under `P0` (interface
queries return pointer 4). -/
theorem claim5_cast_independent_witness :
    ((Object.ToContainer P0 sOpen 0).1 = Except.ok 1 ∧
     (1 : Nat) ≠ 0 ∧
     ((Object.ToContainer P0 sOpen 0).2.1).handleAt 0 = some 3 ∧
     ((Object.ToContainer P0 sOpen 0).2.1).handleAt 1 = some 4 ∧
     ((Object.Close P0 (Object.ToContainer P0 sOpen 0).2.1 0).1).handleAt 1
       = some 4 ∧
     ((Object.Close P0 (Object.ToContainer P0 sOpen 0).2.1 1).1).handleAt 0
       = some 3) ∧
    ((Object.ToComputer P0 sOpen 0).1 = Except.ok 1 ∧
     ((Object.ToComputer P0 sOpen 0).2.1).handleAt 0 = some 3 ∧
     ((Object.ToComputer P0 sOpen 0).2.1).handleAt 1 = some 4 ∧
     ((Object.Close P0 (Object.ToComputer P0 sOpen 0).2.1 0).1).handleAt 1
       = some 4 ∧
     ((Object.Close P0 (Object.ToComputer P0 sOpen 0).2.1 1).1).handleAt 0
       = some 3) ∧
    ((Object.ToGroup P0 sOpen 0).1 = Except.ok 1 ∧
     ((Object.ToGroup P0 sOpen 0).2.1).handleAt 0 = some 3 ∧
     ((Object.ToGroup P0 sOpen 0).2.1).handleAt 1 = some 4 ∧
     ((Object.Close P0 (Object.ToGroup P0 sOpen 0).2.1 0).1).handleAt 1
       = some 4 ∧
     ((Object.Close P0 (Object.ToGroup P0 sOpen 0).2.1 1).1).handleAt 0
       = some 3) :=
  claim5_cast_independent P0 sOpen 0 3 4 4 4 (by rfl) (by rfl) (by rfl) (by rfl)

/-- Claim C6: when the platform's interface query fails in a cast, the cast returns
exactly the platform's own error (wrapped only by the error taxonomy's
pass-through constructor, carrying the platform code unmodified), produces no new
handle, and leaves the state unchanged. -/
theorem claim6_cast_platform_error (P : Platform) (s : State) (h : HandleId)
    (p : IfacePtr) (ec em eg : PlatErr)
    (hp : s.handleAt h = some p)
    (hqc : P.queryInterfaceR p IID.iadsContainer = Except.error ec)
    (hqm : P.queryInterfaceR p IID.iadsComputer = Except.error em)
    (hqg : P.queryInterfaceR p IID.iadsGroup = Except.error eg) :
    Object.ToContainer P s h = (Except.error (AdsiErr.platform ec), s,
      [Event.callQueryInterface p IID.iadsContainer]) ∧
    Object.ToComputer P s h = (Except.error (AdsiErr.platform em), s,
      [Event.callQueryInterface p IID.iadsComputer]) ∧
    Object.ToGroup P s h = (Except.error (AdsiErr.platform eg), s,
      [Event.callQueryInterface p IID.iadsGroup]) := by
  refine ⟨?_, ?_, ?_⟩
  · simp [Object.ToContainer, hp, hqc, run]
  · simp [Object.ToComputer, hp, hqm, run]
  · simp [Object.ToGroup, hp, hqg, run]

/-- A concrete platform oracle whose interface queries all fail with code 42. -/
def Pfail : Platform :=
  { P0 with queryInterfaceR := fun _ _ => Except.error 42 }

/-- Witness for C6 at the concrete open handle 0 of `sOpen` under `Pfail`. -/
theorem claim6_cast_platform_error_witness :
    Object.ToContainer Pfail sOpen 0 = (Except.error (AdsiErr.platform 42), sOpen,
      [Event.callQueryInterface 3 IID.iadsContainer]) ∧
    Object.ToComputer Pfail sOpen 0 = (Except.error (AdsiErr.platform 42), sOpen,
      [Event.callQueryInterface 3 IID.iadsComputer]) ∧
    Object.ToGroup Pfail sOpen 0 = (Except.error (AdsiErr.platform 42), sOpen,
      [Event.callQueryInterface 3 IID.iadsGroup]) :=
  claim6_cast_platform_error Pfail sOpen 0 3 42 42 42 (by rfl) (by rfl) (by rfl)
    (by rfl)

/-- Iterated `Close` on the same handle. -/
def closeIter (P : Platform) (h : HandleId) : Nat → State → State
  | 0, s => s
  | Nat.succ k, s => closeIter P h k (Object.Close P s h).1

theorem closeIter_of_closed (P : Platform) (h : HandleId) (k : Nat) (s : State)
    (hc : s.handleAt h = none) : closeIter P h k s = s := by
  induction k with
  | zero => rfl
  | succ j ih =>
    show closeIter P h j (Object.Close P s h).1 = s
    rw [close_of_closed P s h hc]
    exact ih

/-- Claim C8: constructing a handle increments the process-wide shim count exactly
once (a single `shimAdd` event), the first `Close` decrements it exactly once (a
single `shimDone` event, after the release call), and any number of further
`Close` calls change nothing, so one construction followed by `k ≥ 1` closes
leaves the count exactly where it started. -/
theorem claim8_shim_balance (P : Platform) (s : State) (p : IfacePtr) (k : Nat)
    (hk : 1 ≤ k) :
    (NewObject s p).2.2 = [Event.shimAdd] ∧
    ((NewObject s p).2.1).shim = s.shim + 1 ∧
    (Object.Close P (NewObject s p).2.1 (NewObject s p).1).2
      = [Event.callRelease p, Event.shimDone] ∧
    (Object.Close P (Object.Close P (NewObject s p).2.1 (NewObject s p).1).1
      (NewObject s p).1).2 = [] ∧
    (closeIter P (NewObject s p).1 k (NewObject s p).2.1).shim = s.shim := by
  have hopen : ((NewObject s p).2.1).handleAt (NewObject s p).1 = some p := by
    show (s.handles ++ [some p]).getD s.handles.length none = some p
    exact getD_append_length s.handles (some p)
  have hclose_ev : (Object.Close P (NewObject s p).2.1 (NewObject s p).1).2
      = [Event.callRelease p, Event.shimDone] := by
    simp [Object.Close, hopen]
  have hopen' : (State.mk (s.handles ++ [some p]) (s.shim + 1)).handleAt
      s.handles.length = some p := getD_append_length s.handles (some p)
  have hclose_shim : ((Object.Close P (NewObject s p).2.1 (NewObject s p).1).1).shim
      = s.shim := by
    simp [Object.Close, NewObject, hopen']
  have hclosed2 : ((Object.Close P (NewObject s p).2.1 (NewObject s p).1).1).handleAt
      (NewObject s p).1 = none := close_closes P (NewObject s p).2.1 (NewObject s p).1
  refine ⟨rfl, rfl, hclose_ev, ?_, ?_⟩
  · rw [close_of_closed P _ _ hclosed2]
  · cases k with
    | zero => exact absurd hk (by simp)
    | succ j =>
      show (closeIter P (NewObject s p).1 j
        (Object.Close P (NewObject s p).2.1 (NewObject s p).1).1).shim = s.shim
      rw [closeIter_of_closed P (NewObject s p).1 j _ hclosed2]
      exact hclose_shim

/-- A concrete empty starting state. -/
def sEmpty : State := { handles := [], shim := 5 }

/-- Witness for C8: one construction and two closes on the fresh handle, starting
from `sEmpty`. -/
theorem claim8_shim_balance_witness :
    (NewObject sEmpty 7).2.2 = [Event.shimAdd] ∧
    ((NewObject sEmpty 7).2.1).shim = sEmpty.shim + 1 ∧
    (Object.Close P0 (NewObject sEmpty 7).2.1 (NewObject sEmpty 7).1).2
      = [Event.callRelease 7, Event.shimDone] ∧
    (Object.Close P0 (Object.Close P0 (NewObject sEmpty 7).2.1
      (NewObject sEmpty 7).1).1 (NewObject sEmpty 7).1).2 = [] ∧
    (closeIter P0 (NewObject sEmpty 7).1 2 (NewObject sEmpty 7).2.1).shim
      = sEmpty.shim :=
  claim8_shim_balance P0 sEmpty 7 2 (by decide)

/-- Claim C9: `NewIADsOpenDSObject` is a pure pass-through to the external creation
call with the `IID_IADsOpenDSObject` identifier: it returns exactly the raw pointer
and error pair that the platform produced (a pointer on success, the platform error
when creation fails), and issues exactly one creation call — no retries, no
caching. -/
theorem claim9_create_pass_through (P : Platform) (server : String) (clsid : GUID) :
    (NewIADsOpenDSObject P server clsid).1
      = P.createRemoteObject server clsid IID.iadsOpenDSObject ∧
    (NewIADsOpenDSObject P server clsid).2
      = [Event.callCreateRemote server clsid IID.iadsOpenDSObject] :=
  ⟨rfl, rfl⟩

/-! ### The state machine over all operations (claim C3) -/

/-- The operations of the handle API, as data, for stating state-machine
properties over arbitrary operation sequences. -/
inductive Op where
  | close (h : HandleId)
  | name (h : HandleId)
  | cls (h : HandleId)
  | guid (h : HandleId)
  | path (h : HandleId)
  | parent (h : HandleId)
  | schema (h : HandleId)
  | toContainer (h : HandleId)
  | toComputer (h : HandleId)
  | toGroup (h : HandleId)
  | newObject (p : IfacePtr)
deriving DecidableEq, Repr

/-- The state transformer of one operation. -/
def applyOp (P : Platform) (s : State) : Op → State
  | Op.close h => (Object.Close P s h).1
  | Op.name h => (Object.Name P s h).2.1
  | Op.cls h => (Object.Class P s h).2.1
  | Op.guid h => (Object.GUID P s h).2.1
  | Op.path h => (Object.Path P s h).2.1
  | Op.parent h => (Object.Parent P s h).2.1
  | Op.schema h => (Object.Schema P s h).2.1
  | Op.toContainer h => (Object.ToContainer P s h).2.1
  | Op.toComputer h => (Object.ToComputer P s h).2.1
  | Op.toGroup h => (Object.ToGroup P s h).2.1
  | Op.newObject p => (NewObject s p).2.1

/-- The state after a sequence of operations. -/
def applyOps (P : Platform) (s : State) (ops : List Op) : State :=
  ops.foldl (applyOp P) s

theorem accessor_state_id (P : Platform) (s : State) (h : HandleId) :
    (Object.Name P s h).2.1 = s ∧ (Object.Class P s h).2.1 = s ∧
    (Object.GUID P s h).2.1 = s ∧ (Object.Path P s h).2.1 = s ∧
    (Object.Parent P s h).2.1 = s ∧ (Object.Schema P s h).2.1 = s := by
  refine ⟨?_, ?_, ?_, ?_, ?_, ?_⟩ <;>
    cases hc : s.handleAt h <;>
      simp [Object.Name, Object.Class, Object.GUID, Object.Path, Object.Parent,
        Object.Schema, hc]

theorem applyOp_handleAt_preserved (P : Platform) (s : State) (op : Op)
    (h' : HandleId) (hlt : h' < s.handles.length) (hne : op ≠ Op.close h') :
    (applyOp P s op).handleAt h' = s.handleAt h' := by
  cases op with
  | close hh =>
    have hneq : hh ≠ h' := fun hh' => hne (by rw [hh'])
    cases hc : s.handleAt hh with
    | none => simp [applyOp, close_of_closed P s hh hc]
    | some p =>
      have hcl : (Object.Close P s hh).1
          = State.mk (s.handles.set hh none) (s.shim - 1) := by
        simp [Object.Close, hc]
      show ((Object.Close P s hh).1).handleAt h' = s.handleAt h'
      rw [hcl]
      exact getD_set_ne s.handles none hh h' hneq
  | name hh => simp [applyOp, (accessor_state_id P s hh).1]
  | cls hh => simp [applyOp, (accessor_state_id P s hh).2.1]
  | guid hh => simp [applyOp, (accessor_state_id P s hh).2.2.1]
  | path hh => simp [applyOp, (accessor_state_id P s hh).2.2.2.1]
  | parent hh => simp [applyOp, (accessor_state_id P s hh).2.2.2.2.1]
  | schema hh => simp [applyOp, (accessor_state_id P s hh).2.2.2.2.2]
  | toContainer hh =>
    cases hc : s.handleAt hh with
    | none => simp [applyOp, Object.ToContainer, hc]
    | some p =>
      cases hq : P.queryInterfaceR p IID.iadsContainer with
      | error e => simp [applyOp, Object.ToContainer, hc, hq]
      | ok q =>
        have : (Object.ToContainer P s hh).2.1
            = State.mk (s.handles ++ [some q]) (s.shim + 1) := by
          simp [Object.ToContainer, NewContainer, hc, hq]
        show ((Object.ToContainer P s hh).2.1).handleAt h' = s.handleAt h'
        rw [this]
        exact getD_append_lt s.handles [some q] h' hlt
  | toComputer hh =>
    cases hc : s.handleAt hh with
    | none => simp [applyOp, Object.ToComputer, hc]
    | some p =>
      cases hq : P.queryInterfaceR p IID.iadsComputer with
      | error e => simp [applyOp, Object.ToComputer, hc, hq]
      | ok q =>
        have : (Object.ToComputer P s hh).2.1
            = State.mk (s.handles ++ [some q]) (s.shim + 1) := by
          simp [Object.ToComputer, NewComputer, hc, hq]
        show ((Object.ToComputer P s hh).2.1).handleAt h' = s.handleAt h'
        rw [this]
        exact getD_append_lt s.handles [some q] h' hlt
  | toGroup hh =>
    cases hc : s.handleAt hh with
    | none => simp [applyOp, Object.ToGroup, hc]
    | some p =>
      cases hq : P.queryInterfaceR p IID.iadsGroup with
      | error e => simp [applyOp, Object.ToGroup, hc, hq]
      | ok q =>
        have : (Object.ToGroup P s hh).2.1
            = State.mk (s.handles ++ [some q]) (s.shim + 1) := by
          simp [Object.ToGroup, NewGroup, hc, hq]
        show ((Object.ToGroup P s hh).2.1).handleAt h' = s.handleAt h'
        rw [this]
        exact getD_append_lt s.handles [some q] h' hlt
  | newObject p =>
    show (s.handles ++ [some p]).getD h' none = s.handles.getD h' none
    exact getD_append_lt s.handles [some p] h' hlt

theorem applyOp_length_mono (P : Platform) (s : State) (op : Op) :
    s.handles.length ≤ (applyOp P s op).handles.length := by
  cases op with
  | close hh =>
    cases hc : s.handleAt hh with
    | none => simp [applyOp, close_of_closed P s hh hc]
    | some p =>
      have hcl : (Object.Close P s hh).1
          = State.mk (s.handles.set hh none) (s.shim - 1) := by
        simp [Object.Close, hc]
      show s.handles.length ≤ ((Object.Close P s hh).1).handles.length
      rw [hcl]
      simp
  | name hh => simp [applyOp, (accessor_state_id P s hh).1]
  | cls hh => simp [applyOp, (accessor_state_id P s hh).2.1]
  | guid hh => simp [applyOp, (accessor_state_id P s hh).2.2.1]
  | path hh => simp [applyOp, (accessor_state_id P s hh).2.2.2.1]
  | parent hh => simp [applyOp, (accessor_state_id P s hh).2.2.2.2.1]
  | schema hh => simp [applyOp, (accessor_state_id P s hh).2.2.2.2.2]
  | toContainer hh =>
    cases hc : s.handleAt hh with
    | none => simp [applyOp, Object.ToContainer, hc]
    | some p =>
      cases hq : P.queryInterfaceR p IID.iadsContainer with
      | error e => simp [applyOp, Object.ToContainer, hc, hq]
      | ok q => simp [applyOp, Object.ToContainer, NewContainer, hc, hq]
  | toComputer hh =>
    cases hc : s.handleAt hh with
    | none => simp [applyOp, Object.ToComputer, hc]
    | some p =>
      cases hq : P.queryInterfaceR p IID.iadsComputer with
      | error e => simp [applyOp, Object.ToComputer, hc, hq]
      | ok q => simp [applyOp, Object.ToComputer, NewComputer, hc, hq]
  | toGroup hh =>
    cases hc : s.handleAt hh with
    | none => simp [applyOp, Object.ToGroup, hc]
    | some p =>
      cases hq : P.queryInterfaceR p IID.iadsGroup with
      | error e => simp [applyOp, Object.ToGroup, hc, hq]
      | ok q => simp [applyOp, Object.ToGroup, NewGroup, hc, hq]
  | newObject p =>
    show s.handles.length ≤ (s.handles ++ [some p]).length
    simp

theorem applyOp_closed_preserved (P : Platform) (s : State) (op : Op)
    (h : HandleId) (hlt : h < s.handles.length)
    (hc : Object.closed s h = true) : Object.closed (applyOp P s op) h = true := by
  have hcn : s.handleAt h = none := by
    simpa [Object.closed, Option.isNone_iff_eq_none] using hc
  by_cases hop : op = Op.close h
  · subst hop
    have : applyOp P s (Op.close h) = s := by
      simp [applyOp, close_of_closed P s h hcn]
    rw [this]
    exact hc
  · have hpre := applyOp_handleAt_preserved P s op h hlt hop
    simp [Object.closed, hpre, hcn]

theorem applyOps_closed (P : Platform) (ops : List Op) (s : State) (h : HandleId)
    (hlt : h < s.handles.length) (hc : Object.closed s h = true) :
    Object.closed (applyOps P s ops) h = true := by
  induction ops generalizing s with
  | nil => exact hc
  | cons op rest ih =>
    show Object.closed (applyOps P (applyOp P s op) rest) h = true
    exact ih (applyOp P s op)
      (lt_of_lt_of_le hlt (applyOp_length_mono P s op))
      (applyOp_closed_preserved P s op h hlt hc)

/-- Claim C3: the handle invariant and two-state machine — the interface pointer is
nil exactly when the handle is closed; any operation applied to a closed handle
leaves it closed; an operation other than `Close` of that handle never changes the
handle's interface field (so the only OPEN to CLOSED transition is its `Close`);
and no sequence of operations ever reopens a closed handle. -/
theorem claim3_state_machine (P : Platform) (s : State) (h : HandleId)
    (op op' : Op) (ops : List Op)
    (hlt : h < s.handles.length) (hne : op' ≠ Op.close h) :
    (Object.closed s h = true ↔ s.handleAt h = none) ∧
    (Object.closed s h = true → Object.closed (applyOp P s op) h = true) ∧
    ((applyOp P s op').handleAt h = s.handleAt h) ∧
    (Object.closed s h = true → Object.closed (applyOps P s ops) h = true) := by
  refine ⟨?_, ?_, ?_, ?_⟩
  · simp [Object.closed, Option.isNone_iff_eq_none]
  · exact fun hc => applyOp_closed_preserved P s op h hlt hc
  · exact applyOp_handleAt_preserved P s op' h hlt hne
  · exact fun hc => applyOps_closed P ops s h hlt hc

/-- Witness for C3 at the concrete closed handle 0 of `sClosed`. -/
theorem claim3_state_machine_witness :
    (Object.closed sClosed 0 = true ↔ sClosed.handleAt 0 = none) ∧
    (Object.closed sClosed 0 = true →
      Object.closed (applyOp P0 sClosed (Op.close 0)) 0 = true) ∧
    ((applyOp P0 sClosed (Op.name 0)).handleAt 0 = sClosed.handleAt 0) ∧
    (Object.closed sClosed 0 = true →
      Object.closed (applyOps P0 sClosed [Op.name 0, Op.close 0, Op.guid 0]) 0
        = true) :=
  claim3_state_machine P0 sClosed 0 (Op.close 0) (Op.name 0)
    [Op.name 0, Op.close 0, Op.guid 0] (by decide) (by decide)

/-!
### Small-step interleaving model (claim C10)

One accessor goroutine running `object.Name` races one goroutine running
`object.Close` on the same handle.  Each Go statement is one atomic micro-step;
the handle's mutex is the `lock` field (`o.m.Lock()` succeeds only when no thread
holds it, and each thread unlocks on exit, mirroring the acquire/`defer`-release
pairs in the source).  The shared `iface` field is the handle's interface pointer.
-/

/-- Program counter of the accessor thread: acquire the lock, check `closed`
under the lock, perform the platform call, release the lock on either exit path. -/
inductive APc where
  | acquire
  | check
  | callPlat
  | unlockOk
  | unlockClosed
  | doneOk
  | doneClosed
deriving DecidableEq, Repr

/-- Program counter of the closing thread: acquire the lock, check `closed`,
release the interface and null the pointer, release the lock. -/
inductive CPc where
  | acquire
  | check
  | releaseNull
  | unlock
  | done
deriving DecidableEq, Repr

/-- Thread identities for lock ownership. -/
inductive Tid where
  | accessor
  | closer
deriving DecidableEq, Repr

/-- The interleaved state: lock owner, shared interface pointer, and the two
program counters. -/
structure CState where
  lock : Option Tid
  iface : Option IfacePtr
  apc : APc
  cpc : CPc
deriving DecidableEq, Repr

/-- One enabled micro-step of the accessor thread (`none` = blocked on the lock
or finished). -/
def astep (s : CState) : Option CState :=
  match s.apc with
  | APc.acquire =>
    match s.lock with
    | none => some { s with lock := some Tid.accessor, apc := APc.check }
    | some _ => none
  | APc.check =>
    match s.iface with
    | none => some { s with apc := APc.unlockClosed }
    | some _ => some { s with apc := APc.callPlat }
  | APc.callPlat => some { s with apc := APc.unlockOk }
  | APc.unlockOk => some { s with lock := none, apc := APc.doneOk }
  | APc.unlockClosed => some { s with lock := none, apc := APc.doneClosed }
  | APc.doneOk => none
  | APc.doneClosed => none

/-- One enabled micro-step of the closing thread. -/
def cstep (s : CState) : Option CState :=
  match s.cpc with
  | CPc.acquire =>
    match s.lock with
    | none => some { s with lock := some Tid.closer, cpc := CPc.check }
    | some _ => none
  | CPc.check =>
    match s.iface with
    | none => some { s with cpc := CPc.unlock }
    | some _ => some { s with cpc := CPc.releaseNull }
  | CPc.releaseNull => some { s with iface := none, cpc := CPc.unlock }
  | CPc.unlock => some { s with lock := none, cpc := CPc.done }
  | CPc.done => none

/-- One interleaving step: either thread moves. -/
inductive CStep : CState → CState → Prop where
  | accessorStep {s s' : CState} : astep s = some s' → CStep s s'
  | closerStep {s s' : CState} : cstep s = some s' → CStep s s'

/-- Reachability under arbitrary interleaving from a start state. -/
inductive Reach (s0 : CState) : CState → Prop where
  | refl : Reach s0 s0
  | step {t u : CState} : Reach s0 t → CStep t u → Reach s0 u

theorem astep_preserves_iface_cpc (s s' : CState) (h : astep s = some s') :
    s'.iface = s.iface ∧ s'.cpc = s.cpc := by
  cases ha : s.apc with
  | acquire =>
    cases hl : s.lock with
    | none =>
      simp [astep, ha, hl] at h
      subst h
      exact ⟨rfl, rfl⟩
    | some t => simp [astep, ha, hl] at h
  | check =>
    cases hi : s.iface with
    | none =>
      simp [astep, ha, hi] at h
      subst h
      exact ⟨rfl, rfl⟩
    | some p =>
      simp [astep, ha, hi] at h
      subst h
      exact ⟨rfl, rfl⟩
  | callPlat =>
    simp [astep, ha] at h
    subst h
    exact ⟨rfl, rfl⟩
  | unlockOk =>
    simp [astep, ha] at h
    subst h
    exact ⟨rfl, rfl⟩
  | unlockClosed =>
    simp [astep, ha] at h
    subst h
    exact ⟨rfl, rfl⟩
  | doneOk => simp [astep, ha] at h
  | doneClosed => simp [astep, ha] at h

theorem reach_closer_finished_iface (s0 t : CState) (h0 : s0.cpc = CPc.acquire)
    (hr : Reach s0 t) :
    (t.cpc = CPc.unlock ∨ t.cpc = CPc.done) → t.iface = none := by
  induction hr with
  | refl =>
    intro hc
    rw [h0] at hc
    rcases hc with hc | hc
    · exact CPc.noConfusion hc
    · exact CPc.noConfusion hc
  | step hrt hstep ih =>
    intro hc
    rename_i t' u
    cases hstep with
    | accessorStep ha =>
      have hp := astep_preserves_iface_cpc _ _ ha
      rw [hp.1]
      apply ih
      rw [hp.2] at hc
      exact hc
    | closerStep hcs =>
      cases hcp : t'.cpc with
      | acquire =>
        cases hl : t'.lock with
        | none =>
          simp [cstep, hcp, hl] at hcs
          subst hcs
          simp at hc
        | some tid => simp [cstep, hcp, hl] at hcs
      | check =>
        cases hi : t'.iface with
        | none =>
          simp [cstep, hcp, hi] at hcs
          subst hcs
          rfl
        | some p =>
          simp [cstep, hcp, hi] at hcs
          subst hcs
          simp at hc
      | releaseNull =>
        simp [cstep, hcp] at hcs
        subst hcs
        rfl
      | unlock =>
        simp [cstep, hcp] at hcs
        subst hcs
        exact ih (Or.inl hcp)
      | done => simp [cstep, hcp] at hcs

/-- Claim C10: in any interleaving of one accessor with one closer on the same
handle (both started from the beginning of their critical sections), once the
closing thread has completed `Close`, an accessor that performs its closed-state
check takes the closed branch: it never proceeds past the check to the platform
call. -/
theorem claim10_serialized (s0 t t' : CState)
    (h0 : s0.cpc = CPc.acquire) (hr : Reach s0 t)
    (hdone : t.cpc = CPc.done) (hchk : t.apc = APc.check)
    (hstep : astep t = some t') :
    t'.apc = APc.unlockClosed ∧ t'.apc ≠ APc.callPlat := by
  have hiface : t.iface = none :=
    reach_closer_finished_iface s0 t h0 hr (Or.inr hdone)
  have heq : astep t = some { t with apc := APc.unlockClosed } := by
    simp [astep, hchk, hiface]
  rw [heq] at hstep
  have ht' : t' = { t with apc := APc.unlockClosed } :=
    (Option.some.inj hstep).symm
  rw [ht']
  exact ⟨rfl, by simp⟩

/-- Start state of the concrete interleaving: lock free, handle open (pointer 7),
both threads about to acquire. -/
def cInit : CState := { lock := none, iface := some 7, apc := APc.acquire, cpc := CPc.acquire }

/-- Closer has acquired the lock. -/
def cS1 : CState := { lock := some Tid.closer, iface := some 7, apc := APc.acquire, cpc := CPc.check }

/-- Closer passed its check on the open handle. -/
def cS2 : CState := { lock := some Tid.closer, iface := some 7, apc := APc.acquire, cpc := CPc.releaseNull }

/-- Closer released the interface and nulled the pointer. -/
def cS3 : CState := { lock := some Tid.closer, iface := none, apc := APc.acquire, cpc := CPc.unlock }

/-- Closer released the lock and finished. -/
def cS4 : CState := { lock := none, iface := none, apc := APc.acquire, cpc := CPc.done }

/-- Accessor then acquired the lock, about to perform its check. -/
def cMid : CState := { lock := some Tid.accessor, iface := none, apc := APc.check, cpc := CPc.done }

/-- Accessor took the closed branch of the check. -/
def cEnd : CState := { lock := some Tid.accessor, iface := none, apc := APc.unlockClosed, cpc := CPc.done }

/-- Witness for C10 on the concrete interleaving where the closer runs to
completion and the accessor then acquires the lock and checks. -/
theorem claim10_serialized_witness :
    cEnd.apc = APc.unlockClosed ∧ cEnd.apc ≠ APc.callPlat :=
  claim10_serialized cInit cMid cEnd rfl
    (Reach.step
      ((Reach.step
        ((Reach.step
          ((Reach.step
            ((Reach.step (Reach.refl) (CStep.closerStep rfl)) : Reach cInit cS1)
            (CStep.closerStep rfl)) : Reach cInit cS2)
          (CStep.closerStep rfl)) : Reach cInit cS3)
        (CStep.closerStep rfl)) : Reach cInit cS4)
      (CStep.accessorStep rfl))
    rfl rfl rfl

end Adsi
